import Mathlib

-- Shallow embedding of Ink.py (SRZUREN/INK): the conversation store
-- (class INKMemory), the AI engine (class INKAIEngine), the SVG emitter
-- (generate_svg) and the /api/chat dispatcher (chat).
--
-- Modelling conventions:
-- * Every datetime.now() call made during one public operation is modelled
--   by a single `now : String` argument to that operation; timestamps are
--   opaque strings, as they never influence control flow in the source.
-- * The snapshot file cache/conversations/memory.json is modelled by the
--   `disk : Option Snapshot` field (none = file absent).
-- * The external Gemini call (model.generate_content + .text) is modelled by
--   an `ext : Except String String` argument: `Except.ok t` is a successful
--   generation with text t, `Except.error e` an exception whose str() is e.
--   The prompt built from recent context is consumed only by that external
--   call, so it does not appear in the embedded state transitions.
-- * `self.model` is `Option Unit`: some () when GEMINI_API_KEY is configured
--   and initialization succeeded, none otherwise.  Calling a method on the
--   Python None model raises AttributeError, embedded as the corresponding
--   `Except.error` string in generate_code.
-- * Python string primitives used by the source (slicing, lower, strip,
--   startswith, `in`) are embedded as py* helpers over the character list.

namespace Ink

/-- Entry of `current_session`: {'role': .., 'content': .., 'timestamp': ..}. -/
structure Turn where
  role : String
  content : String
  timestamp : String
  deriving DecidableEq

/-- Entry of `thinking_log`: {'thought': .., 'timestamp': ..}. -/
structure ThoughtEntry where
  thought : String
  timestamp : String
  deriving DecidableEq

/-- Content of the memory.json snapshot written by INKMemory.save_memory. -/
structure Snapshot where
  current_session : List Turn
  thinking_log : List ThoughtEntry
  last_updated : String
  deriving DecidableEq

/-- State of an INKMemory instance plus the snapshot file it owns. -/
structure INKMemory where
  current_session : List Turn
  thinking_log : List ThoughtEntry
  disk : Option Snapshot
  deriving DecidableEq

/-- Python slice `l[-n:]`: for n = 0 this is `l[0:]`, the whole list. -/
def pySliceLast {α : Type} (l : List α) (n : Nat) : List α :=
  if n = 0 then l else l.drop (l.length - n)

/-- Python slice `s[n:]` on code points. -/
def pySliceFrom (n : Nat) (s : String) : String :=
  String.mk (s.data.drop n)

/-- Python slice `s[:n]` on code points. -/
def pySliceTo (n : Nat) (s : String) : String :=
  String.mk (s.data.take n)

/-- Python `s.lower()`. -/
def pyLower (s : String) : String :=
  String.mk (s.data.map Char.toLower)

/-- Helper for Python `needle in hay`: substring containment on code points. -/
def pyInAux (needle : List Char) : List Char → Bool
  | [] => needle.isEmpty
  | c :: rest => needle.isPrefixOf (c :: rest) || pyInAux needle rest

/-- Python `needle in hay` for strings. -/
def pyIn (needle hay : String) : Bool :=
  pyInAux needle.data hay.data

/-- Python `s.startswith(pre)`. -/
def pyStartsWith (s pre : String) : Bool :=
  pre.data.isPrefixOf s.data

/-- Python `s.strip()`. -/
def pyStrip (s : String) : String :=
  String.mk (((s.data.dropWhile Char.isWhitespace).reverse.dropWhile
    Char.isWhitespace).reverse)

/-- INKMemory.__init__ + load_memory: rehydrate from the snapshot file when it
exists, otherwise start with empty sequences. -/
def load_memory (disk : Option Snapshot) : INKMemory :=
  match disk with
  | some d => ⟨d.current_session, d.thinking_log, disk⟩
  | none => ⟨[], [], none⟩

/-- INKMemory.save_memory: rewrite the snapshot with the truncated slices
`current_session[-100:]` and `thinking_log[-100:]`. -/
def save_memory (now : String) (m : INKMemory) : INKMemory :=
  { m with disk := some ⟨pySliceLast m.current_session 100,
      pySliceLast m.thinking_log 100, now⟩ }

/-- INKMemory.add_message: append a Turn, then save. -/
def add_message (role content now : String) (m : INKMemory) : INKMemory :=
  save_memory now
    { m with current_session := m.current_session ++ [⟨role, content, now⟩] }

/-- INKMemory.add_thinking: append a ThoughtEntry, then save. -/
def add_thinking (thought now : String) (m : INKMemory) : INKMemory :=
  save_memory now
    { m with thinking_log := m.thinking_log ++ [⟨thought, now⟩] }

/-- INKMemory.get_context: `current_session[-limit:]` (source default 10). -/
def get_context (m : INKMemory) (limit : Nat) : List Turn :=
  pySliceLast m.current_session limit

/-- INKMemory.clear_session: empty both sequences, then save. -/
def clear_session (now : String) (m : INKMemory) : INKMemory :=
  save_memory now { m with current_session := [], thinking_log := [] }

/-- One store mutation step, for reasoning about arbitrary operation
sequences: INKMemory.add_message or INKMemory.add_thinking. -/
inductive MemOp where
  | appendTurn (role content now : String)
  | appendThought (thought now : String)
  deriving DecidableEq

/-- Timestamp carried by a MemOp. -/
def MemOp.now : MemOp → String
  | .appendTurn _ _ n => n
  | .appendThought _ n => n

/-- Run one MemOp against the store. -/
def applyOp (op : MemOp) (m : INKMemory) : INKMemory :=
  match op with
  | .appendTurn r c n => add_message r c n m
  | .appendThought t n => add_thinking t n m

/-- Run a sequence of MemOps left to right. -/
def applyOps (ops : List MemOp) (m : INKMemory) : INKMemory :=
  ops.foldl (fun m op => applyOp op m) m

/-- State of an INKAIEngine instance. -/
structure Engine where
  model : Option Unit
  memory : INKMemory
  training_mode : Bool
  deriving DecidableEq

/-- INKAIEngine.__init__ + initialize_model: the model is configured exactly
when GEMINI_API_KEY is present (and configuration succeeded); the memory is
rehydrated from the snapshot file; training_mode starts False. -/
def mkEngine (apiKeyPresent : Bool) (disk : Option Snapshot) : Engine :=
  { model := if apiKeyPresent then some () else none
    memory := load_memory disk
    training_mode := false }

/-- Result dict of INKAIEngine.generate_response. -/
structure GenResult where
  response : String
  thinking : String
  deriving DecidableEq

/-- INKAIEngine.generate_response.  The context block and prompt are consumed
only by the external call abstracted as `ext`, so they do not appear in the
state transitions.  The except-branch absorbs the external failure. -/
def generate_response (eng : Engine) (user_input : String)
    (ext : Except String String) (now : String) : GenResult × Engine :=
  match eng.model with
  | none =>
      (⟨"Please configure GEMINI_API_KEY to use INK AI.",
        "Model not initialized - API key missing"⟩, eng)
  | some _ =>
      let m1 := add_thinking
        ("Processing user input: " ++ pySliceTo 50 user_input ++ "...") now
        eng.memory
      let m2 := add_thinking "Generating response from Gemini..." now m1
      match ext with
      | Except.ok ai_response =>
          let m3 := add_message "user" user_input now m2
          let m4 := add_message "assistant" ai_response now m3
          let m5 := add_thinking "Response generated successfully" now m4
          (⟨ai_response,
            String.intercalate "\n"
              ((pySliceLast m5.thinking_log 5).map ThoughtEntry.thought)⟩,
           { eng with memory := m5 })
      | Except.error e =>
          let error_msg := "Error: " ++ e
          let m3 := add_thinking error_msg now m2
          (⟨"I encountered an error: " ++ e, error_msg⟩,
           { eng with memory := m3 })

/-- INKAIEngine.generate_code.  The source does not test self.model here: when
the model is None, the attribute access on None inside the try-block raises an
AttributeError which the except-branch catches, so the attempted call is the
AttributeError text in that case and `ext` otherwise. -/
def generate_code (eng : Engine) (description : String)
    (ext : Except String String) (now : String) : String × Engine :=
  let m1 := add_thinking ("Code generation requested: " ++ description) now
    eng.memory
  let attempt : Except String String :=
    match eng.model with
    | none =>
        Except.error
          "\x27NoneType\x27 object has no attribute \x27generate_content\x27"
    | some _ => ext
  match attempt with
  | Except.ok code =>
      let m2 := add_thinking "Code generated successfully" now m1
      (code, { eng with memory := m2 })
  | Except.error e =>
      ("Error generating code: " ++ e, { eng with memory := m1 })

/-- INKAIEngine.train_mode: set the flag, record a thought, acknowledge. -/
def train_mode (eng : Engine) (instruction now : String) : String × Engine :=
  let eng1 : Engine := { eng with training_mode := true }
  let eng2 : Engine := { eng1 with
    memory := add_thinking ("Training instruction received: " ++ instruction)
      now eng1.memory }
  ("Training mode activated. Instruction: " ++ instruction, eng2)

/-- One SVG element emitted by generate_svg. -/
inductive SvgElem where
  | circle (center : Nat × Nat) (r : Nat) (fill : String)
  | rect (insert : Nat × Nat) (size : Nat × Nat) (fill : String)
  | polygon (points : List (Nat × Nat)) (fill : String)
  | text (content : String) (insert : Nat × Nat) (anchor : String)
      (fontSize : String)
  deriving DecidableEq

/-- The emitted vector-image document: canvas size in px and element list. -/
structure SvgDoc where
  size : Nat × Nat
  elements : List SvgElem
  deriving DecidableEq

/-- Fixed vertex list of the ten-point star polygon. -/
def starPoints : List (Nat × Nat) :=
  [(200, 50), (230, 150), (350, 150), (250, 220), (280, 320),
   (200, 250), (120, 320), (150, 220), (50, 150), (170, 150)]

/-- generate_svg: classify the description and emit the 400x400 document;
returns the filepath written and the document content. -/
def generate_svg (description : String) (filename : String) :
    String × SvgDoc :=
  let filepath := "cache/images/" ++ filename
  let elems : List SvgElem :=
    if pyIn "circle" (pyLower description) then
      [SvgElem.circle (200, 200) 100 "blue"]
    else if pyIn "rect" (pyLower description) ||
        pyIn "square" (pyLower description) then
      [SvgElem.rect (100, 100) (200, 200) "green"]
    else if pyIn "star" (pyLower description) then
      [SvgElem.polygon starPoints "gold"]
    else
      [SvgElem.rect (50, 50) (300, 300) "lightgray",
       SvgElem.text (pySliceTo 20 description) (200, 200) "middle" "20px"]
  (filepath, ⟨(400, 400), elems⟩)

/-- The five routes of the /api/chat dispatcher. -/
inductive Route where
  | train
  | code
  | svg
  | clear
  | chat
  deriving DecidableEq

/-- The branch selected by the if/elif chain of the chat() view. -/
def dispatchRoute (msg : String) : Route :=
  if pyStartsWith msg "/train" then Route.train
  else if pyStartsWith msg "/code" then Route.code
  else if pyStartsWith msg "/svg" then Route.svg
  else if pyStartsWith msg "/clear" then Route.clear
  else Route.chat

/-- Observable outcome of one /api/chat request: the JSON reply fields, the
engine state afterwards, and the SVG file written by the /svg branch. -/
structure ChatResult where
  response : String
  thinking : String
  engine : Engine
  svgWritten : Option (String × SvgDoc)
  deriving DecidableEq

/-- The chat() view function: dispatch on the message prefix.  `unix` is
int(time.time()) used for the SVG filename. -/
def chat (eng : Engine) (user_message : String) (ext : Except String String)
    (now : String) (unix : Nat) : ChatResult :=
  if pyStartsWith user_message "/train" then
    let instruction := pyStrip (pySliceFrom 7 user_message)
    let r := train_mode eng instruction now
    ⟨r.1, "Entering training mode", r.2, none⟩
  else if pyStartsWith user_message "/code" then
    let description := pyStrip (pySliceFrom 6 user_message)
    let r := generate_code eng description ext now
    ⟨r.1, "Generating code", r.2, none⟩
  else if pyStartsWith user_message "/svg" then
    let description := pyStrip (pySliceFrom 5 user_message)
    let filename := "svg_" ++ toString unix ++ ".svg"
    let fp := generate_svg description filename
    ⟨"SVG created! View it at: /images/" ++ filename,
     "Generating SVG image", eng, some fp⟩
  else if pyStartsWith user_message "/clear" then
    ⟨"Memory cleared!", "Session reset",
     { eng with memory := clear_session now eng.memory }, none⟩
  else
    let r := generate_response eng user_message ext now
    ⟨r.1.response, r.1.thinking, r.2, none⟩

-- Helper lemmas (shared; not tied to any single claim).

theorem pySliceLast_hundred_length_le {α : Type} (l : List α) :
    (pySliceLast l 100).length ≤ 100 := by
  simp [pySliceLast, List.length_drop]
  omega

theorem pySliceLast_eq_self {α : Type} (l : List α) (h : l.length ≤ 100) :
    pySliceLast l 100 = l := by
  have h0 : l.length - 100 = 0 := by omega
  simp [pySliceLast, h0]

theorem applyOps_cons (op : MemOp) (ops : List MemOp) (m : INKMemory) :
    applyOps (op :: ops) m = applyOps ops (applyOp op m) := rfl

theorem applyOp_disk_eq (op : MemOp) (m : INKMemory) :
    (applyOp op m).disk
      = some ⟨pySliceLast (applyOp op m).current_session 100,
          pySliceLast (applyOp op m).thinking_log 100, op.now⟩ := by
  cases op <;> rfl

theorem applyOps_disk_nonempty :
    ∀ (ops : List MemOp) (m : INKMemory), ops ≠ [] →
      ∃ ts, (applyOps ops m).disk
        = some ⟨pySliceLast (applyOps ops m).current_session 100,
            pySliceLast (applyOps ops m).thinking_log 100, ts⟩ := by
  intro ops
  induction ops with
  | nil => intro m h; exact absurd rfl h
  | cons op rest ih =>
      intro m _
      cases rest with
      | nil => exact ⟨op.now, applyOp_disk_eq op m⟩
      | cons o2 r2 =>
          rw [applyOps_cons]
          exact ih (applyOp op m) (by simp)

theorem applyOps_session_turns :
    ∀ (ts : List (String × String × String)) (m : INKMemory),
      (applyOps (ts.map fun t => MemOp.appendTurn t.1 t.2.1 t.2.2)
          m).current_session
        = m.current_session ++ ts.map fun t => Turn.mk t.1 t.2.1 t.2.2 := by
  intro ts
  induction ts with
  | nil => intro m; simp [applyOps]
  | cons t rest ih =>
      intro m
      simp only [List.map_cons]
      rw [applyOps_cons, ih]
      simp [applyOp, add_message, save_memory, List.append_assoc]

/-- Claim C1: every snapshot written by save_memory during a sequence of
append_turn / append_thought operations holds at most the most recent 100
Turns and 100 ThoughtEntries; after appending N > 100 Turns from an empty
store, the snapshot holds exactly the most recent 100 Turns in insertion
order. -/
theorem c1_snapshot_window :
    (∀ (op : MemOp) (m : INKMemory) (snap : Snapshot),
        (applyOp op m).disk = some snap →
        snap.current_session.length ≤ 100 ∧
          snap.thinking_log.length ≤ 100) ∧
    (∀ (ops : List MemOp) (snap : Snapshot),
        (applyOps ops (load_memory none)).disk = some snap →
        snap.current_session.length ≤ 100 ∧
          snap.thinking_log.length ≤ 100) ∧
    (∀ (turns : List (String × String × String)), 100 < turns.length →
        ∃ snap,
          (applyOps (turns.map fun t => MemOp.appendTurn t.1 t.2.1 t.2.2)
              (load_memory none)).disk = some snap ∧
          snap.current_session
            = ((turns.map fun t => Turn.mk t.1 t.2.1 t.2.2).drop
                (turns.length - 100)) ∧
          snap.current_session.length = 100) := by
  refine ⟨?_, ?_, ?_⟩
  · intro op m snap h
    rw [applyOp_disk_eq] at h
    injection h with h
    subst h
    exact ⟨pySliceLast_hundred_length_le _, pySliceLast_hundred_length_le _⟩
  · intro ops snap h
    cases ops with
    | nil => simp [applyOps, load_memory] at h
    | cons op rest =>
        obtain ⟨ts, hd⟩ :=
          applyOps_disk_nonempty (op :: rest) (load_memory none) (by simp)
        rw [hd] at h
        injection h with h
        subst h
        exact ⟨pySliceLast_hundred_length_le _,
          pySliceLast_hundred_length_le _⟩
  · intro turns hlen
    have hne : (turns.map fun t => MemOp.appendTurn t.1 t.2.1 t.2.2) ≠ [] := by
      intro hc
      cases turns with
      | nil => simp at hlen
      | cons a l => simp at hc
    obtain ⟨ts, hd⟩ := applyOps_disk_nonempty _ (load_memory none) hne
    have hs : (applyOps (turns.map fun t => MemOp.appendTurn t.1 t.2.1 t.2.2)
        (load_memory none)).current_session
          = turns.map fun t => Turn.mk t.1 t.2.1 t.2.2 := by
      rw [applyOps_session_turns]
      simp [load_memory]
    refine ⟨_, hd, ?_, ?_⟩
    · show pySliceLast _ 100 = _
      rw [hs]
      simp [pySliceLast, List.length_map]
    · show (pySliceLast _ 100).length = 100
      rw [hs]
      have hml : (turns.map fun t => Turn.mk t.1 t.2.1 t.2.2).length
          = turns.length := List.length_map _ _
      have hdef : pySliceLast (turns.map fun t => Turn.mk t.1 t.2.1 t.2.2) 100
          = (turns.map fun t => Turn.mk t.1 t.2.1 t.2.2).drop
              ((turns.map fun t => Turn.mk t.1 t.2.1 t.2.2).length - 100) := by
        simp [pySliceLast]
      rw [hdef, List.length_drop, hml]
      omega

/-- Witness for C1 at concrete inputs: a single append, and 101 appends. -/
theorem c1_snapshot_window_witness :
    ((Snapshot.mk [Turn.mk "user" "hi" "t1"] [] "t1").current_session.length
        ≤ 100 ∧
      (Snapshot.mk [Turn.mk "user" "hi" "t1"] [] "t1").thinking_log.length
        ≤ 100) ∧
    (∃ snap,
      (applyOps ((List.replicate 101 ("user", "hi", "t0")).map
          fun t => MemOp.appendTurn t.1 t.2.1 t.2.2)
          (load_memory none)).disk = some snap ∧
      snap.current_session
        = (((List.replicate 101 ("user", "hi", "t0")).map
            fun t => Turn.mk t.1 t.2.1 t.2.2).drop
            ((List.replicate 101 ("user", "hi", "t0")).length - 100)) ∧
      snap.current_session.length = 100) :=
  ⟨c1_snapshot_window.1 (MemOp.appendTurn "user" "hi" "t1")
      (load_memory none) (Snapshot.mk [Turn.mk "user" "hi" "t1"] [] "t1")
      (by decide),
   c1_snapshot_window.2.2 (List.replicate 101 ("user", "hi", "t0"))
      (by decide)⟩

/-- Claim C2: saving a session of at most 100 turns and reloading the
snapshot in a fresh instance reproduces exactly the same turn list (hence
identical role, content and timestamp fields). -/
theorem c2_save_load_roundtrip (m : INKMemory) (now : String)
    (h : m.current_session.length ≤ 100) :
    (load_memory (save_memory now m).disk).current_session
      = m.current_session := by
  simp [load_memory, save_memory]
  exact pySliceLast_eq_self _ h

/-- Witness for C2 at a concrete two-turn session. -/
theorem c2_save_load_roundtrip_witness :
    (load_memory (save_memory "t3"
        (INKMemory.mk [Turn.mk "user" "hi" "t1", Turn.mk "assistant" "hello"
          "t2"] [] none)).disk).current_session
      = (INKMemory.mk [Turn.mk "user" "hi" "t1", Turn.mk "assistant" "hello"
          "t2"] [] none).current_session :=
  c2_save_load_roundtrip
    (INKMemory.mk [Turn.mk "user" "hi" "t1", Turn.mk "assistant" "hello"
      "t2"] [] none) "t3" (by decide)

/-- Claim C3: the dispatcher selects exactly one of the five routes by
literal, case-sensitive prefix match checked in the order /train, /code,
/svg, /clear, default chat; in particular "/code /svg draw a circle" goes to
the code branch, not the svg branch, and "/Code hi" (wrong case) falls
through to chat. -/
theorem c3_dispatch_priority :
    (∀ msg : String,
      (dispatchRoute msg = Route.train ↔ pyStartsWith msg "/train" = true) ∧
      (dispatchRoute msg = Route.code ↔
        pyStartsWith msg "/train" = false ∧
          pyStartsWith msg "/code" = true) ∧
      (dispatchRoute msg = Route.svg ↔
        pyStartsWith msg "/train" = false ∧
          pyStartsWith msg "/code" = false ∧
          pyStartsWith msg "/svg" = true) ∧
      (dispatchRoute msg = Route.clear ↔
        pyStartsWith msg "/train" = false ∧
          pyStartsWith msg "/code" = false ∧
          pyStartsWith msg "/svg" = false ∧
          pyStartsWith msg "/clear" = true) ∧
      (dispatchRoute msg = Route.chat ↔
        pyStartsWith msg "/train" = false ∧
          pyStartsWith msg "/code" = false ∧
          pyStartsWith msg "/svg" = false ∧
          pyStartsWith msg "/clear" = false)) ∧
    dispatchRoute "/code /svg draw a circle" = Route.code ∧
    dispatchRoute "/Code hi" = Route.chat ∧
    (∀ (eng : Engine) (ext : Except String String) (now : String)
        (unix : Nat),
      (chat eng "/code /svg draw a circle" ext now unix).thinking
          = "Generating code" ∧
      (chat eng "/code /svg draw a circle" ext now unix).svgWritten
          = none) := by
  refine ⟨?_, by decide, by decide, ?_⟩
  · intro msg
    cases h1 : pyStartsWith msg "/train" <;>
      cases h2 : pyStartsWith msg "/code" <;>
      cases h3 : pyStartsWith msg "/svg" <;>
      cases h4 : pyStartsWith msg "/clear" <;>
      simp [dispatchRoute, h1, h2, h3, h4]
  · intro eng ext now unix
    exact ⟨rfl, rfl⟩

/-- Claim C4: with no credential configured (model = None), generate_response
returns the fixed refusal and diagnostic and leaves the engine, hence the
store, completely unchanged: no Turn and no ThoughtEntry is added. -/
theorem c4_missing_credential (eng : Engine) (input : String)
    (ext : Except String String) (now : String) (h : eng.model = none) :
    generate_response eng input ext now
      = (GenResult.mk "Please configure GEMINI_API_KEY to use INK AI."
          "Model not initialized - API key missing", eng) := by
  simp [generate_response, h]

/-- Witness for C4 on a keyless engine. -/
theorem c4_missing_credential_witness :
    generate_response (mkEngine false none) "hi" (Except.ok "x") "t"
      = (GenResult.mk "Please configure GEMINI_API_KEY to use INK AI."
          "Model not initialized - API key missing", mkEngine false none) :=
  c4_missing_credential (mkEngine false none) "hi" (Except.ok "x") "t" rfl

/-- Claim C5: when the external call fails inside generate_response, a
ThoughtEntry carrying the error text is recorded, the returned pair embeds
the error with the same error text as diagnostic, the failure is absorbed
(the function is total on the error), and no Turn is appended. -/
theorem c5_external_failure (eng : Engine) (input e now : String)
    (h : eng.model = some ()) :
    (generate_response eng input (Except.error e) now).1.response
        = "I encountered an error: " ++ e ∧
    (generate_response eng input (Except.error e) now).1.thinking
        = "Error: " ++ e ∧
    (generate_response eng input (Except.error e) now).2.memory.current_session
        = eng.memory.current_session ∧
    (generate_response eng input (Except.error e)
          now).2.memory.thinking_log.map ThoughtEntry.thought
        = eng.memory.thinking_log.map ThoughtEntry.thought ++
            ["Processing user input: " ++ pySliceTo 50 input ++ "...",
             "Generating response from Gemini...",
             "Error: " ++ e] ∧
    (∃ t, t ∈ (generate_response eng input (Except.error e)
          now).2.memory.thinking_log ∧ t.thought = "Error: " ++ e) := by
  refine ⟨?_, ?_, ?_, ?_, ?_⟩
  · simp [generate_response, h]
  · simp [generate_response, h]
  · simp [generate_response, h, add_thinking, save_memory]
  · simp [generate_response, h, add_thinking, save_memory]
  · refine ⟨⟨"Error: " ++ e, now⟩, ?_, rfl⟩
    simp [generate_response, h, add_thinking, save_memory]

/-- Witness for C5: a configured engine whose external call raises "boom". -/
theorem c5_external_failure_witness :
    (generate_response (mkEngine true none) "hi" (Except.error "boom")
        "t").1.response = "I encountered an error: " ++ "boom" ∧
    (generate_response (mkEngine true none) "hi" (Except.error "boom")
        "t").1.thinking = "Error: " ++ "boom" ∧
    (generate_response (mkEngine true none) "hi" (Except.error "boom")
        "t").2.memory.current_session
      = (mkEngine true none).memory.current_session ∧
    (generate_response (mkEngine true none) "hi" (Except.error "boom")
        "t").2.memory.thinking_log.map ThoughtEntry.thought
      = (mkEngine true none).memory.thinking_log.map ThoughtEntry.thought ++
          ["Processing user input: " ++ pySliceTo 50 "hi" ++ "...",
           "Generating response from Gemini...",
           "Error: " ++ "boom"] ∧
    (∃ t, t ∈ (generate_response (mkEngine true none) "hi"
        (Except.error "boom") "t").2.memory.thinking_log ∧
        t.thought = "Error: " ++ "boom") :=
  c5_external_failure (mkEngine true none) "hi" "boom" "t" rfl

/-- Claim C6: the image emitter classifies the description case-insensitively
in the priority order circle, then rect or square, then star, then fallback
labeled square with the first 20 characters, and always emits a 400x400
document; the star polygon has ten fixed vertices. -/
theorem c6_svg_classification (d fn : String) :
    ((generate_svg d fn).2.size = (400, 400)) ∧
    (pyIn "circle" (pyLower d) = true →
      (generate_svg d fn).2.elements
        = [SvgElem.circle (200, 200) 100 "blue"]) ∧
    (pyIn "circle" (pyLower d) = false →
      (pyIn "rect" (pyLower d) || pyIn "square" (pyLower d)) = true →
      (generate_svg d fn).2.elements
        = [SvgElem.rect (100, 100) (200, 200) "green"]) ∧
    (pyIn "circle" (pyLower d) = false →
      (pyIn "rect" (pyLower d) || pyIn "square" (pyLower d)) = false →
      pyIn "star" (pyLower d) = true →
      (generate_svg d fn).2.elements = [SvgElem.polygon starPoints "gold"] ∧
        starPoints.length = 10) ∧
    (pyIn "circle" (pyLower d) = false →
      (pyIn "rect" (pyLower d) || pyIn "square" (pyLower d)) = false →
      pyIn "star" (pyLower d) = false →
      (generate_svg d fn).2.elements
        = [SvgElem.rect (50, 50) (300, 300) "lightgray",
           SvgElem.text (pySliceTo 20 d) (200, 200) "middle" "20px"]) := by
  refine ⟨rfl, ?_, ?_, ?_, ?_⟩
  · intro h1
    simp [generate_svg, h1]
  · intro h1 h2
    simp [generate_svg, h1, h2]
  · intro h1 h2 h3
    exact ⟨by simp [generate_svg, h1, h2, h3], by decide⟩
  · intro h1 h2 h3
    simp [generate_svg, h1, h2, h3]

/-- Witness for C6 on the four example descriptions of the spec. -/
theorem c6_svg_classification_witness :
    ((generate_svg "please draw a circle" "f.svg").2.elements
        = [SvgElem.circle (200, 200) 100 "blue"]) ∧
    ((generate_svg "a red square please" "f.svg").2.elements
        = [SvgElem.rect (100, 100) (200, 200) "green"]) ∧
    ((generate_svg "give me a star" "f.svg").2.elements
        = [SvgElem.polygon starPoints "gold"] ∧ starPoints.length = 10) ∧
    ((generate_svg "hello" "f.svg").2.elements
        = [SvgElem.rect (50, 50) (300, 300) "lightgray",
           SvgElem.text (pySliceTo 20 "hello") (200, 200) "middle"
             "20px"]) :=
  ⟨(c6_svg_classification "please draw a circle" "f.svg").2.1 (by decide),
   (c6_svg_classification "a red square please" "f.svg").2.2.1 (by decide)
     (by decide),
   (c6_svg_classification "give me a star" "f.svg").2.2.2.1 (by decide)
     (by decide) (by decide),
   (c6_svg_classification "hello" "f.svg").2.2.2.2 (by decide) (by decide)
     (by decide)⟩

/-- Claim C7: on an input with prefix /train, the dispatcher strips the
prefix, the response is the fixed acknowledgement embedding the stripped
remainder, the thinking label is fixed, the training flag is set, exactly one
thought is recorded, and no Turn is appended; the model is untouched. -/
theorem c7_train_route (eng : Engine) (msg : String)
    (ext : Except String String) (now : String) (unix : Nat)
    (h : pyStartsWith msg "/train" = true) :
    (chat eng msg ext now unix).response
        = "Training mode activated. Instruction: " ++
            pyStrip (pySliceFrom 7 msg) ∧
    (chat eng msg ext now unix).thinking = "Entering training mode" ∧
    (chat eng msg ext now unix).engine.training_mode = true ∧
    (chat eng msg ext now unix).engine.memory.current_session
        = eng.memory.current_session ∧
    (chat eng msg ext now unix).engine.memory.thinking_log.map
          ThoughtEntry.thought
        = eng.memory.thinking_log.map ThoughtEntry.thought ++
            ["Training instruction received: " ++
              pyStrip (pySliceFrom 7 msg)] ∧
    (chat eng msg ext now unix).engine.model = eng.model ∧
    (chat eng msg ext now unix).svgWritten = none := by
  refine ⟨?_, ?_, ?_, ?_, ?_, ?_, ?_⟩ <;>
    simp [chat, h, train_mode, add_thinking, save_memory]

/-- Witness for C7 on the input "/train be nice". -/
theorem c7_train_route_witness :
    (chat (mkEngine true none) "/train be nice" (Except.ok "x") "t"
        0).response
      = "Training mode activated. Instruction: " ++
          pyStrip (pySliceFrom 7 "/train be nice") ∧
    (chat (mkEngine true none) "/train be nice" (Except.ok "x") "t"
        0).thinking = "Entering training mode" ∧
    (chat (mkEngine true none) "/train be nice" (Except.ok "x") "t"
        0).engine.training_mode = true ∧
    (chat (mkEngine true none) "/train be nice" (Except.ok "x") "t"
        0).engine.memory.current_session
      = (mkEngine true none).memory.current_session ∧
    (chat (mkEngine true none) "/train be nice" (Except.ok "x") "t"
        0).engine.memory.thinking_log.map ThoughtEntry.thought
      = (mkEngine true none).memory.thinking_log.map ThoughtEntry.thought ++
          ["Training instruction received: " ++
            pyStrip (pySliceFrom 7 "/train be nice")] ∧
    (chat (mkEngine true none) "/train be nice" (Except.ok "x") "t"
        0).engine.model = (mkEngine true none).model ∧
    (chat (mkEngine true none) "/train be nice" (Except.ok "x") "t"
        0).svgWritten = none :=
  c7_train_route (mkEngine true none) "/train be nice" (Except.ok "x") "t" 0
    (by decide)

/-- Claim C8: clear_session empties both sequences and persists the empty
snapshot, so get_context returns the empty list for every limit (including
0) and both persisted arrays are empty. -/
theorem c8_clear (m : INKMemory) (now : String) (limit : Nat) :
    (clear_session now m).current_session = [] ∧
    (clear_session now m).thinking_log = [] ∧
    get_context (clear_session now m) limit = [] ∧
    (clear_session now m).disk = some (Snapshot.mk [] [] now) := by
  refine ⟨rfl, rfl, ?_, ?_⟩
  · cases limit <;>
      simp [get_context, clear_session, save_memory, pySliceLast]
  · simp [clear_session, save_memory, pySliceLast]

/-- Counterexample to claim C9 as stated: with no credential, generate_code
does not return the fixed refusal message; it returns the stringified
AttributeError raised by calling generate_content on the missing model, while
generate_response does return the fixed refusal. -/
theorem c9_counterexample :
    (generate_code (mkEngine false none) "hi" (Except.ok "code") "t").1
      = "Error generating code: " ++
          "\x27NoneType\x27 object has no attribute \x27generate_content\x27" ∧
    (generate_code (mkEngine false none) "hi" (Except.ok "code") "t").1
      ≠ "Please configure GEMINI_API_KEY to use INK AI." ∧
    (generate_response (mkEngine false none) "hi" (Except.ok "x")
        "t").1.response
      = "Please configure GEMINI_API_KEY to use INK AI." := by
  refine ⟨by decide, by decide, by decide⟩

/-- Amended claim C9: with the credential missing, generate_response returns
the fixed refusal and fixed diagnostic; generate_code is also never fatal,
but instead of a refusal it returns an error string embedding the caught
AttributeError text from the call on the missing model. -/
theorem c9_amended_degradation (eng : Engine) (input desc : String)
    (ext : Except String String) (now : String) (h : eng.model = none) :
    (generate_response eng input ext now).1.response
        = "Please configure GEMINI_API_KEY to use INK AI." ∧
    (generate_response eng input ext now).1.thinking
        = "Model not initialized - API key missing" ∧
    (generate_code eng desc ext now).1
        = "Error generating code: " ++
            "\x27NoneType\x27 object has no attribute \x27generate_content\x27"
      := by
  refine ⟨?_, ?_, ?_⟩
  · simp [generate_response, h]
  · simp [generate_response, h]
  · simp [generate_code, h]

/-- Witness for the amended C9 on a keyless engine. -/
theorem c9_amended_degradation_witness :
    (generate_response (mkEngine false none) "hi" (Except.ok "x")
        "t").1.response
      = "Please configure GEMINI_API_KEY to use INK AI." ∧
    (generate_response (mkEngine false none) "hi" (Except.ok "x")
        "t").1.thinking
      = "Model not initialized - API key missing" ∧
    (generate_code (mkEngine false none) "desc" (Except.ok "x") "t").1
      = "Error generating code: " ++
          "\x27NoneType\x27 object has no attribute \x27generate_content\x27" :=
  c9_amended_degradation (mkEngine false none) "hi" "desc" (Except.ok "x")
    "t" rfl

/-- Claim C10: get_context with limit 0 returns the whole session (the Python
slice current_session[-0:] is the full list), so on a non-empty session it is
not the empty list the "last limit turns" contract would give. -/
theorem c10_limit_zero (m : INKMemory) (h : m.current_session ≠ []) :
    get_context m 0 = m.current_session ∧ get_context m 0 ≠ [] := by
  constructor
  · simp [get_context, pySliceLast]
  · simp [get_context, pySliceLast]
    exact h

/-- Witness for C10 on a one-turn session. -/
theorem c10_limit_zero_witness :
    get_context (INKMemory.mk [Turn.mk "user" "hi" "t1"] [] none) 0
      = (INKMemory.mk [Turn.mk "user" "hi" "t1"] [] none).current_session ∧
    get_context (INKMemory.mk [Turn.mk "user" "hi" "t1"] [] none) 0 ≠ [] :=
  c10_limit_zero (INKMemory.mk [Turn.mk "user" "hi" "t1"] [] none)
    (by decide)

end Ink
